import Mathlib

/-!
Verification of the pricing and discount rules engine of the FreshMart
product service (`src/services/api/productService.js`).

The engine is shallowly embedded: JavaScript numbers are modelled as exact
rationals (`ℚ`), absent/undefined fields as `Option`, date strings as integer
timestamps, thrown exceptions as `Except String`, and the mutable in-memory
catalog (`this.products`) as an explicitly passed `List Product`.  The class
defines `bulkUpdatePrices` twice; in JavaScript the later definition wins, so
the embedding follows the second (conflict-aware) definition.  JavaScript
truthiness on numbers (`x` is truthy iff `x ≠ 0`) and on option-like values is
modelled explicitly.  `Math.round` is `⌊x + 1/2⌋` (round half toward +∞).
-/

namespace ProductService

/-- JavaScript `Math.round`: nearest integer, halves toward positive infinity. -/
def jsRound (x : ℚ) : ℤ := ⌊x + 1/2⌋

/-- The engine's pervasive 2-decimal rounding idiom `Math.round(x * 100) / 100`. -/
def round2 (x : ℚ) : ℚ := (jsRound (x * 100) : ℚ) / 100

/-- JavaScript `a || b` on a possibly-undefined number (`undefined` and `0` are falsy). -/
def jsOrQ (o : Option ℚ) (d : ℚ) : ℚ :=
  match o with
  | some v => if v = 0 then d else v
  | none => d

/-- JavaScript `a || b` on a possibly-undefined string (`undefined` and `""` are falsy). -/
def jsOrStr (o : Option String) (d : String) : String :=
  match o with
  | some s => if s = "" then d else s
  | none => d

/-- Truthiness of a possibly-undefined number. -/
def jsTruthyQ : Option ℚ → Bool
  | none => false
  | some v => decide (v ≠ 0)

/-- Truthiness of a possibly-undefined string. -/
def jsTruthyStr : Option String → Bool
  | none => false
  | some s => decide (s ≠ "")

/-- One element of a product's `priceHistory` array. -/
structure PriceChangeEntry where
  date : ℤ
  oldPrice : ℚ
  newPrice : ℚ
  user : String
  reason : String
deriving DecidableEq, Repr

/-- A catalog record, restricted to the fields the pricing engine reads or
writes.  Dates are integer timestamps; `none` models `undefined`/`null`. -/
structure Product where
  id : ℤ
  name : String
  category : Option String
  price : ℚ
  purchasePrice : ℚ
  previousPrice : Option ℚ
  discountType : Option String
  discountValue : ℚ
  discountStartDate : Option ℤ
  discountEndDate : Option ℤ
  discountPriority : ℤ
  stock : ℤ
  profitMargin : ℚ
  priceHistory : List PriceChangeEntry
deriving DecidableEq, Repr

/-- The patch object accepted by `update`, restricted to the fields the
engine's validations and derived-field computations inspect. -/
structure UpdatePatch where
  price : Option ℚ
  purchasePrice : Option ℚ
  stock : Option ℤ
deriving DecidableEq, Repr

/-- `this.products.find(p => p.id === id)` (first match). -/
def findById : List Product → ℤ → Option Product
  | [], _ => none
  | p :: rest, i => if p.id = i then some p else findById rest i

/-- `this.products[index] = q` where `index` is `findIndex(p => p.id === id)`. -/
def setById : List Product → ℤ → Product → List Product
  | [], _, _ => []
  | p :: rest, i, q => if p.id = i then q :: rest else p :: setById rest i q

/-- `productData.price !== undefined && productData.price <= 0`. -/
def patchPriceBad (patch : UpdatePatch) : Bool :=
  match patch.price with
  | some v => decide (v ≤ 0)
  | none => false

/-- `productData.stock !== undefined && productData.stock < 0`. -/
def patchStockBad (patch : UpdatePatch) : Bool :=
  match patch.stock with
  | some s => decide (s < 0)
  | none => false

/-- Both price and purchasePrice supplied and `price <= purchasePrice`. -/
def patchPricePurchaseBad (patch : UpdatePatch) : Bool :=
  match patch.price, patch.purchasePrice with
  | some v, some pp => decide (v ≤ pp)
  | _, _ => false

/-- The merge-and-derive step of `update`: snapshot `previousPrice`, append the
history entry when the price changes, spread the patch over the record, and
recompute `profitMargin` when both resulting prices are truthy. -/
def mergeUpdate (cur : Product) (patch : UpdatePatch) (now : ℤ) : Product :=
  let changed : Bool :=
    match patch.price with
    | some v => decide (v ≠ cur.price)
    | none => false
  let hist :=
    if changed then
      cur.priceHistory ++
        [⟨now, cur.price, (patch.price).getD cur.price, "Admin", "Manual update"⟩]
    else cur.priceHistory
  let prev := if changed then some cur.price else cur.previousPrice
  let p1 : Product :=
    { cur with
      price := (patch.price).getD cur.price
      purchasePrice := (patch.purchasePrice).getD cur.purchasePrice
      stock := (patch.stock).getD cur.stock
      previousPrice := prev
      priceHistory := hist }
  if p1.price ≠ 0 ∧ p1.purchasePrice ≠ 0 then
    { p1 with profitMargin := round2 ((p1.price - p1.purchasePrice) / p1.purchasePrice * 100) }
  else p1

/-- `update(id, productData)`: locate by id, validate, track the price change,
merge, recompute the margin, persist.  Returns the new catalog and the
updated record. -/
def update (ps : List Product) (id : ℤ) (patch : UpdatePatch) (now : ℤ) :
    Except String (List Product × Product) :=
  match findById ps id with
  | none => .error "Product not found"
  | some cur =>
    if patchPriceBad patch then .error "Price must be greater than 0"
    else if patchStockBad patch then .error "Stock cannot be negative"
    else if patchPricePurchaseBad patch then
      .error "Selling price must be greater than purchase price"
    else
      let updated := mergeUpdate cur patch now
      .ok (setById ps id updated, updated)

/-- The record returned by `calculateProfitMetrics`. -/
structure ProfitMetrics where
  minSellingPrice : ℚ
  profitMargin : ℚ
  finalPrice : ℚ
deriving DecidableEq, Repr

/-- `calculateProfitMetrics(productData)`: final price after discount (floored
at 0), minimum selling price (cost + 10%), and profit margin, each rounded to
2 decimals with `Math.round`. -/
def calculateProfitMetrics (price purchasePrice discountValue : ℚ)
    (discountType : Option String) : ProfitMetrics :=
  let finalPrice0 :=
    if discountValue > 0 then
      if discountType = some "Percentage" then price - price * discountValue / 100
      else price - discountValue
    else price
  let finalPrice := max 0 finalPrice0
  let minSellingPrice := if purchasePrice > 0 then purchasePrice * (11/10) else 0
  let profitMargin :=
    if purchasePrice > 0 ∧ finalPrice > 0 then
      (finalPrice - purchasePrice) / purchasePrice * 100
    else 0
  { minSellingPrice := round2 minSellingPrice
    profitMargin := round2 profitMargin
    finalPrice := round2 finalPrice }

/-- The loosely-shaped request object consumed by `bulkUpdatePrices` and
`validateBulkPriceUpdate`. -/
structure BulkUpdateRequest where
  strategy : Option String
  value : Option ℚ
  minPrice : Option ℚ
  maxPrice : Option ℚ
  category : Option String
  applyToLowStock : Bool
  stockThreshold : ℤ
  activeTab : Option String
  categoryDiscount : Bool
  discountType : Option String
  discountValue : Option ℚ
  discountStartDate : Option ℤ
  discountEndDate : Option ℤ
  conflictResolution : Option String
deriving DecidableEq, Repr

/-- The `{isValid, error}` object returned by `validateBulkPriceUpdate`. -/
structure ValidationResult where
  isValid : Bool
  error : Option String
deriving DecidableEq, Repr

/-- `validateBulkPriceUpdate(updateData)`: requires a truthy strategy; for
`range`, truthy min and max with `min < max`; otherwise a truthy value.
(The `isNaN` re-check of the parsed value cannot fire in the rational model,
where every present value is a number.) -/
def validateBulkPriceUpdate (u : BulkUpdateRequest) : ValidationResult :=
  if ¬ jsTruthyStr u.strategy then ⟨false, some "Update strategy is required"⟩
  else if u.strategy = some "range" then
    if ¬ jsTruthyQ u.minPrice ∨ ¬ jsTruthyQ u.maxPrice then
      ⟨false, some "Both minimum and maximum prices are required for range strategy"⟩
    else if (u.minPrice).getD 0 ≥ (u.maxPrice).getD 0 then
      ⟨false, some "Minimum price must be less than maximum price"⟩
    else ⟨true, none⟩
  else
    if ¬ jsTruthyQ u.value then ⟨false, some "Update value is required"⟩
    else ⟨true, none⟩

/-- The pricing-tab strategy switch of `bulkUpdatePrices` (only reached when
`activeTab === 'pricing'`). -/
def applyStrategy (u : BulkUpdateRequest) (originalPrice : ℚ) : ℚ :=
  if u.activeTab = some "pricing" then
    match u.strategy with
    | some "percentage" => originalPrice * (1 + (u.value).getD 0 / 100)
    | some "fixed" => originalPrice + (u.value).getD 0
    | some "range" =>
      let minP := (u.minPrice).getD 0
      let maxP := jsOrQ u.maxPrice originalPrice
      min (max originalPrice minP) maxP
    | _ => originalPrice
  else originalPrice

/-- The existing discount's absolute amount, computed on the pre-discount
price (`merge` branch of the conflict-resolution switch). -/
def existingDiscountAmount (p : Product) : ℚ :=
  if p.discountType = some "Percentage" then p.price * p.discountValue / 100
  else p.discountValue

/-- Whether the `merge` policy keeps the existing discount: only when the new
discount is percentage-type and its amount does not exceed the existing one. -/
def mergeKeepsExisting (u : BulkUpdateRequest) (p : Product) : Bool :=
  if u.discountType = some "percentage" then
    decide (p.price * (u.discountValue).getD 0 / 100 ≤ existingDiscountAmount p)
  else false

/-- The conflict-resolution switch for a record that already carries a
discount: returns `(shouldUpdate, pushedToConflictList)`. -/
def resolveShouldUpdate (u : BulkUpdateRequest) (p : Product) : Bool × Bool :=
  if p.discountValue > 0 then
    match u.conflictResolution with
    | some s =>
      if s = "skip" then (false, true)
      else if s = "override" then (true, false)
      else if s = "merge" then (!(mergeKeepsExisting u p), false)
      else (true, false)
    | none => (true, false)
  else (true, false)

/-- The discounts-tab price computation: apply the new discount to the base
price when the record survived conflict resolution and the value is positive. -/
def newPriceAfterDiscount (u : BulkUpdateRequest) (p : Product)
    (shouldUpdate : Bool) (np0 : ℚ) : ℚ :=
  if shouldUpdate = true ∧ (u.discountValue).getD 0 > 0 then
    if u.discountType = some "percentage" then
      p.price * (1 - (u.discountValue).getD 0 / 100)
    else p.price - (u.discountValue).getD 0
  else np0

/-- Request-level min/max guards followed by the `[1, 100000]` clamp
(`Math.max(1, Math.min(newPrice, 100000))`). -/
def applyGuards (u : BulkUpdateRequest) (np : ℚ) : ℚ :=
  let np1 :=
    match u.minPrice with
    | some m => if m ≠ 0 ∧ np < m then m else np
    | none => np
  let np2 :=
    match u.maxPrice with
    | some m => if m ≠ 0 ∧ np1 > m then m else np1
    | none => np1
  max 1 (min np2 100000)

/-- The committed record: snapshot `previousPrice`, write the rounded price,
and attach the request's discount fields on the discounts tab. -/
def commitProduct (u : BulkUpdateRequest) (cur : Product)
    (originalPrice np : ℚ) : Product :=
  let base := { cur with previousPrice := some originalPrice, price := round2 np }
  if u.activeTab = some "discounts" ∧ u.categoryDiscount = true then
    { base with
      discountType := u.discountType
      discountValue := (u.discountValue).getD 0
      discountStartDate := u.discountStartDate
      discountEndDate := u.discountEndDate }
  else base

/-- `findIndex(p => p.id === pid)` followed by in-place assignment of `f` of
the current record; the flag reports whether the index was found. -/
def commitById (ps : List Product) (pid : ℤ) (f : Product → Product) :
    List Product × Bool :=
  match ps with
  | [] => ([], false)
  | p :: rest =>
    if p.id = pid then (f p :: rest, true)
    else (p :: (commitById rest pid f).1, (commitById rest pid f).2)

/-- The mutable state threaded through the bulk loop. -/
structure BulkState where
  products : List Product
  updatedCount : ℕ
  conflictProducts : List Product
deriving DecidableEq, Repr

/-- The `(shouldUpdate, conflictPushed)` pair for one bulk-loop record: the
conflict-resolution switch fires only on the discounts tab with the
category-discount flag set. -/
def bulkResolve (u : BulkUpdateRequest) (p : Product) : Bool × Bool :=
  if u.activeTab = some "discounts" ∧ u.categoryDiscount = true then
    resolveShouldUpdate u p
  else (true, false)

/-- The per-record price after strategy resolution, discount application, the
request-level guards and the `[1, 100000]` clamp (`originalPrice` is the
record's price). -/
def bulkNewPrice (u : BulkUpdateRequest) (p : Product) : ℚ :=
  applyGuards u
    (if u.activeTab = some "discounts" ∧ u.categoryDiscount = true then
      newPriceAfterDiscount u p (bulkResolve u p).1 (applyStrategy u p.price)
    else applyStrategy u p.price)

/-- One iteration of the `for (const product of filteredProducts)` loop of
`bulkUpdatePrices`. -/
def bulkStep (u : BulkUpdateRequest) (st : BulkState) (p : Product) : BulkState :=
  let st1 :=
    if (bulkResolve u p).2 = true then
      { st with conflictProducts := st.conflictProducts ++ [p] }
    else st
  if (bulkResolve u p).1 = true ∧ 1/100 < |bulkNewPrice u p - p.price| then
    if (commitById st1.products p.id
        fun cur => commitProduct u cur p.price (bulkNewPrice u p)).2 then
      { st1 with
        products := (commitById st1.products p.id
          fun cur => commitProduct u cur p.price (bulkNewPrice u p)).1
        updatedCount := st1.updatedCount + 1 }
    else
      { st1 with
        products := (commitById st1.products p.id
          fun cur => commitProduct u cur p.price (bulkNewPrice u p)).1 }
  else st1

/-- The category and low-stock filters at the head of `bulkUpdatePrices`. -/
def bulkFilter (ps : List Product) (u : BulkUpdateRequest) : List Product :=
  let f1 :=
    if u.category ≠ some "all" then ps.filter fun p => p.category == u.category
    else ps
  if u.applyToLowStock then f1.filter fun p => p.stock ≤ u.stockThreshold else f1

/-- The summary returned by `bulkUpdatePrices`, together with the resulting
catalog (the JavaScript mutates `this.products` in place). -/
structure BulkResult where
  products : List Product
  updatedCount : ℕ
  totalFiltered : ℕ
  conflictCount : ℕ
  strategy : String
  conflictProducts : List Product
deriving DecidableEq, Repr

/-- `bulkUpdatePrices(updateData)` — the effective (second) definition of the
method: validate the request, filter the catalog, run the per-record loop,
and return the summary. -/
def bulkUpdatePrices (ps : List Product) (u : BulkUpdateRequest) :
    Except String BulkResult :=
  let validation := validateBulkPriceUpdate u
  if validation.isValid then
    let filtered := bulkFilter ps u
    let final := filtered.foldl (bulkStep u) ⟨ps, 0, []⟩
    .ok
      { products := final.products
        updatedCount := final.updatedCount
        totalFiltered := filtered.length
        conflictCount := final.conflictProducts.length
        strategy := jsOrStr u.strategy "category_discount"
        conflictProducts := final.conflictProducts.take 5 }
  else .error ((validation.error).getD "")

/-- A conflict record produced by `validateOfferConflicts`; the discount-bound
conflicts carry no `productId`. -/
structure ConflictRecord where
  type : String
  productId : Option ℤ
  details : String
deriving DecidableEq, Repr

/-- The object returned by `validateOfferConflicts`. -/
structure OfferValidation where
  isValid : Bool
  conflicts : List ConflictRecord
  warnings : List String
  error : Option String
deriving DecidableEq, Repr

/-- `p.id !== excludeId` with a possibly-null `excludeId` (a numeric id never
equals `null`). -/
def idNotExcluded (pid : ℤ) : Option ℤ → Bool
  | none => true
  | some e => decide (pid ≠ e)

/-- The candidate's effective discount type: `productData.discountType || 'Fixed Amount'`. -/
def candidateDiscountType (c : Product) : String := jsOrStr c.discountType "Fixed Amount"

/-- The same-category, discounted, dated catalog records scanned for date
overlap. -/
def overlapCandidates (cand : Product) (ps : List Product) (excludeId : Option ℤ) :
    List Product :=
  ps.filter fun p =>
    p.category == cand.category && idNotExcluded p.id excludeId &&
      decide (p.discountValue > 0) && (p.discountStartDate).isSome &&
      (p.discountEndDate).isSome

/-- The `overlapping_dates` conflicts: one per same-category discounted record
whose window `[s2, e2]` meets the candidate's `[s1, e1]` (`s1 ≤ e2 ∧ e1 ≥ s2`),
gated on the candidate having a positive discount and a defined window. -/
def overlapConflicts (cand : Product) (ps : List Product) (excludeId : Option ℤ) :
    List ConflictRecord :=
  if cand.discountValue > 0 ∧ (cand.discountStartDate).isSome ∧
      (cand.discountEndDate).isSome then
    (overlapCandidates cand ps excludeId).filterMap fun p =>
      if (cand.discountStartDate).getD 0 ≤ (p.discountEndDate).getD 0 ∧
          (cand.discountEndDate).getD 0 ≥ (p.discountStartDate).getD 0 then
        some ⟨"overlapping_dates", some p.id,
          "Overlapping discount period with " ++ p.name⟩
      else none
  else []

/-- The candidate's post-discount price as computed inside
`validateOfferConflicts`. -/
def offerFinalPrice (cand : Product) : ℚ :=
  if candidateDiscountType cand = "Percentage" then
    cand.price - cand.price * cand.discountValue / 100
  else cand.price - cand.discountValue

/-- The `excessive_discount` / `invalid_discount` conflicts (bound re-checks
reported as conflicts). -/
def discountBoundConflicts (cand : Product) : List ConflictRecord :=
  if cand.discountValue > 0 then
    (if candidateDiscountType cand = "Percentage" ∧ cand.discountValue > 90 then
      [⟨"excessive_discount", none, "Percentage discount exceeds 90%"⟩]
    else []) ++
    (if candidateDiscountType cand = "Fixed Amount" ∧ cand.discountValue ≥ cand.price then
      [⟨"invalid_discount", none, "Fixed discount amount equals or exceeds product price"⟩]
    else [])
  else []

/-- The deep-discount advisory warning (final price below 10% of original). -/
def deepDiscountWarnings (cand : Product) : List String :=
  if cand.discountValue > 0 then
    if offerFinalPrice cand < cand.price * (1/10) then
      ["Discount results in very low final price (less than 10% of original)"]
    else []
  else []

/-- The same-priority advisory warning over the same-category catalog records. -/
def priorityWarnings (cand : Product) (ps : List Product) (excludeId : Option ℤ) :
    List String :=
  let priority := if cand.discountPriority = 0 then 1 else cand.discountPriority
  let same := ps.filter fun p =>
    p.category == cand.category && idNotExcluded p.id excludeId &&
      decide (p.discountPriority = priority) && decide (p.discountValue > 0)
  if same.length > 0 then
    [toString same.length ++ " other products in the category have the same priority level"]
  else []

/-- The `low_profit_margin` conflict: post-discount margin below 5%. -/
def lowMarginConflicts (cand : Product) : List ConflictRecord :=
  if cand.purchasePrice > 0 ∧ cand.discountValue > 0 then
    if (offerFinalPrice cand - cand.purchasePrice) / cand.purchasePrice * 100 < 5 then
      [⟨"low_profit_margin", none,
        "Discounted price results in low profit margin (minimum 5% recommended)"⟩]
    else []
  else []

/-- `validateOfferConflicts(productData, allProducts, excludeId)`: collect the
blocking conflicts (date overlap, discount bounds, low margin) and the
advisory warnings; the result is valid iff no conflict exists. -/
def validateOfferConflicts (cand : Product) (ps : List Product)
    (excludeId : Option ℤ) : OfferValidation :=
  let conflicts :=
    overlapConflicts cand ps excludeId ++ discountBoundConflicts cand ++
      lowMarginConflicts cand
  let warnings := deepDiscountWarnings cand ++ priorityWarnings cand ps excludeId
  { isValid := conflicts.isEmpty
    conflicts := conflicts
    warnings := warnings
    error := if conflicts.isEmpty then none else some "Offer conflicts detected" }

/-- Whether a validation result reports an `overlapping_dates` conflict. -/
def hasOverlapConflict (r : OfferValidation) : Bool :=
  r.conflicts.any fun c => c.type == "overlapping_dates"

/-- Insertion step of the descending-by-date sort used on history entries. -/
def insertByDateDesc (e : PriceChangeEntry) : List PriceChangeEntry → List PriceChangeEntry
  | [] => [e]
  | x :: xs => if x.date ≥ e.date then x :: insertByDateDesc e xs else e :: x :: xs

/-- `history.sort((a, b) => new Date(b.date) - new Date(a.date))`: most recent
first. -/
def sortByDateDesc : List PriceChangeEntry → List PriceChangeEntry
  | [] => []
  | x :: xs => insertByDateDesc x (sortByDateDesc xs)

/-- Milliseconds in a day, as in `24 * 60 * 60 * 1000`. -/
def dayMs : ℤ := 86400000

/-- `getPriceHistory(productId)`: return the recorded history most recent
first when any exists; otherwise fabricate mock entries from `previousPrice`
and, for prices above 100, an extra seasonal entry. -/
def getPriceHistory (ps : List Product) (productId : ℤ) (now : ℤ) :
    Except String (List PriceChangeEntry) :=
  match findById ps productId with
  | none => .error "Product not found"
  | some product =>
    if product.priceHistory.length > 0 then
      .ok (sortByDateDesc product.priceHistory)
    else
      let m1 : List PriceChangeEntry :=
        match product.previousPrice with
        | some pv =>
          if pv ≠ 0 ∧ pv ≠ product.price then
            [⟨now - dayMs, pv, product.price, "Admin", "Price adjustment"⟩]
          else []
        | none => []
      let m2 : List PriceChangeEntry :=
        if product.price > 100 then
          [⟨now - 7 * dayMs, product.price * (9/10), jsOrQ product.previousPrice product.price,
            "System", "Seasonal adjustment"⟩]
        else []
      .ok (sortByDateDesc (m1 ++ m2))

/-- One entry of the list consumed by `bulkPartialUpdate`. -/
structure PartialUpdate where
  productId : ℤ
  basePrice : Option ℚ
  costPrice : Option ℚ
deriving DecidableEq, Repr

/-- `updateData.price <= 0` with an undefined price comparing false. -/
def partialPriceBad (u : PartialUpdate) : Bool :=
  match u.basePrice with
  | some v => decide (v ≤ 0)
  | none => false

/-- `updateData.purchasePrice !== undefined && updateData.price <= updateData.purchasePrice`
(an undefined price comparing false). -/
def partialPriceVsCostBad (u : PartialUpdate) : Bool :=
  match u.basePrice, u.costPrice with
  | some v, some c => decide (v ≤ c)
  | _, _ => false

/-- One iteration of the `bulkPartialUpdate` loop: pre-validate, then delegate
to `update`, isolating any thrown error into the errors list. -/
def partialStep (ps : List Product) (u : PartialUpdate) (now : ℤ) :
    List Product × Bool × List (ℤ × String) :=
  if partialPriceBad u then
    (ps, false, [(u.productId, "Base price must be greater than 0")])
  else if partialPriceVsCostBad u then
    (ps, false, [(u.productId, "Base price must be greater than cost price")])
  else
    match update ps u.productId ⟨u.basePrice, u.costPrice, none⟩ now with
    | .ok r => (r.1, true, [])
    | .error e => (ps, false, [(u.productId, e)])

/-- The accumulator loop of `bulkPartialUpdate`. -/
def bulkPartialGo (now : ℤ) : List PartialUpdate → List Product → ℕ →
    List (ℤ × String) → List Product × ℕ × List (ℤ × String)
  | [], ps, s, errs => (ps, s, errs)
  | u :: rest, ps, s, errs =>
    let r := partialStep ps u now
    bulkPartialGo now rest r.1 (if r.2.1 then s + 1 else s) (errs ++ r.2.2)

/-- The `{successCount, totalUpdates, errors}` summary of `bulkPartialUpdate`,
together with the resulting catalog. -/
structure PartialResult where
  products : List Product
  successCount : ℕ
  totalUpdates : ℕ
  errors : List (ℤ × String)
deriving DecidableEq, Repr

/-- `bulkPartialUpdate(updates)`: apply each partial patch independently,
counting successes and collecting per-entry errors without aborting the batch. -/
def bulkPartialUpdate (ps : List Product) (updates : List PartialUpdate)
    (now : ℤ) : PartialResult :=
  let r := bulkPartialGo now updates ps 0 []
  { products := r.1
    successCount := r.2.1
    totalUpdates := updates.length
    errors := r.2.2 }

/-! Concrete fixtures used by counterexamples and witnesses. -/

/-- A catalog record priced 100 with cost basis 80 and no history. -/
def sampleProduct100 : Product :=
  { id := 1, name := "A", category := some "Groceries", price := 100, purchasePrice := 80,
    previousPrice := none, discountType := none, discountValue := 0,
    discountStartDate := none, discountEndDate := none, discountPriority := 1,
    stock := 5, profitMargin := 25, priceHistory := [] }

/-- A second catalog record priced 200. -/
def sampleProduct200 : Product := { sampleProduct100 with id := 2, price := 200 }

/-- The scenario-3 request: percentage strategy, value 10, category `all`,
nothing else set. -/
def percentageRequest : BulkUpdateRequest :=
  { strategy := some "percentage", value := some 10, minPrice := none, maxPrice := none,
    category := some "all", applyToLowStock := false, stockThreshold := 0,
    activeTab := none, categoryDiscount := false, discountType := none,
    discountValue := none, discountStartDate := none, discountEndDate := none,
    conflictResolution := none }

/-- The scenario-3 request with the pricing tab selected. -/
def percentageRequestPricing : BulkUpdateRequest :=
  { percentageRequest with activeTab := some "pricing" }

/-- A record with no recorded history, no previous price, and price above 100. -/
def historylessProduct : Product :=
  { sampleProduct100 with price := 150, purchasePrice := 0, profitMargin := 0 }

/-- C8 — counterexample.  The claim says every 2-decimal rounding rounds half
away from zero, so a raw margin of −3.125 would have to round to −3.13.  On
price 62, purchase price 64, no discount, the margin computation is exact even
in the engine's IEEE-754 doubles — every intermediate (62 − 64 = −2,
−2/64 = −0.03125, ×100 = −3.125, ×100 = −312.5) is a dyadic rational with a
short mantissa, so the scaled value lands exactly on the −312.5 tie — and
`Math.round(−312.5)` is −312, so the engine returns −3.12 (= −78/25), toward
zero rather than away from it. -/
theorem C8_counterexample :
    (calculateProfitMetrics 62 64 0 none).profitMargin = -78/25 ∧
      ((62:ℚ) - 64) / 64 * 100 = -25/8 ∧ ((-78 : ℚ)/25) ≠ -313/100 := by
  refine ⟨by norm_num [calculateProfitMetrics, round2, jsRound], by norm_num, by norm_num⟩

/-- C8 — amended.  Every 2-decimal rounding the engine performs uses JavaScript
`Math.round` semantics: the result is a multiple of 1/100 lying in the
half-open interval `(x − 1/200, x + 1/200]`, i.e. nearest-hundredth with exact
halves rounded toward positive infinity.  A negative quantity whose scaled
value is an exact (double-representable) half therefore rounds toward zero: a
margin of −3.125 (price 62, cost 64) yields −3.12, not −3.13.  (Non-dyadic
inputs such as 78.3/80 never reach an exact tie in doubles, so only
representable halves witness the direction.) -/
theorem C8_round_half_toward_posinf (x : ℚ) :
    (∃ n : ℤ, round2 x = (n : ℚ) / 100) ∧
      x - 1/200 < round2 x ∧ round2 x ≤ x + 1/200 := by
  have h1 : ((⌊x * 100 + 1/2⌋ : ℤ) : ℚ) ≤ x * 100 + 1/2 := Int.floor_le _
  have h2 : x * 100 + 1/2 - 1 < ((⌊x * 100 + 1/2⌋ : ℤ) : ℚ) := Int.sub_one_lt_floor _
  unfold round2 jsRound
  refine ⟨⟨⌊x * 100 + 1/2⌋, rfl⟩, ?_, ?_⟩
  · rw [lt_div_iff₀ (by norm_num : (0:ℚ) < 100)]
    linarith
  · rw [div_le_iff₀ (by norm_num : (0:ℚ) < 100)]
    linarith

/-- C10 — confirmed.  `validateBulkPriceUpdate` treats the numeric zero as an
absent field: a `range` request with `minPrice = 0` or `maxPrice = 0` fails
with the missing-bounds error, and a `percentage`/`fixed` request with
`value = 0` fails with the missing-value error. -/
theorem C10_zero_treated_as_absent (u : BulkUpdateRequest) :
    (u.strategy = some "range" → (u.minPrice = some 0 ∨ u.maxPrice = some 0) →
      validateBulkPriceUpdate u =
        ⟨false, some "Both minimum and maximum prices are required for range strategy"⟩) ∧
    ((u.strategy = some "percentage" ∨ u.strategy = some "fixed") → u.value = some 0 →
      validateBulkPriceUpdate u = ⟨false, some "Update value is required"⟩) := by
  constructor
  · intro hs hzero
    unfold validateBulkPriceUpdate
    rw [hs]
    rcases hzero with h | h <;> rw [h] <;> simp [jsTruthyStr, jsTruthyQ]
  · intro hs hzero
    unfold validateBulkPriceUpdate
    rw [hzero]
    rcases hs with h | h <;> rw [h] <;> simp [jsTruthyStr, jsTruthyQ]

/-- C10 — witness: a concrete `range` request with `minPrice = 0` is rejected
with the missing-bounds error. -/
theorem C10_witness :
    validateBulkPriceUpdate
        { percentageRequest with
          strategy := some "range"
          minPrice := some 0
          maxPrice := some 50 } =
      ⟨false, some "Both minimum and maximum prices are required for range strategy"⟩ :=
  (C10_zero_treated_as_absent _).1 rfl (Or.inl rfl)

/-- A record whose price already lies in the clamp range is left untouched by
the scenario-3 request without `activeTab` (the pricing switch never fires). -/
theorem bulkStep_noTab (st : BulkState) (p : Product) (h1 : 1 ≤ p.price)
    (h2 : p.price ≤ 100000) : bulkStep percentageRequest st p = st := by
  unfold bulkStep bulkResolve bulkNewPrice applyStrategy resolveShouldUpdate
    newPriceAfterDiscount applyGuards
  simp [percentageRequest]
  rw [min_eq_left h2, max_eq_right h1]
  norm_num

/-- Concrete evaluation: scenario 3 without `activeTab` commits nothing. -/
theorem bulkRunNoTab_eq :
    bulkUpdatePrices [sampleProduct100, sampleProduct200] percentageRequest =
      .ok
        { products := [sampleProduct100, sampleProduct200]
          updatedCount := 0
          totalFiltered := 2
          conflictCount := 0
          strategy := "percentage"
          conflictProducts := [] } := by
  unfold bulkUpdatePrices
  rw [show bulkFilter [sampleProduct100, sampleProduct200] percentageRequest =
      [sampleProduct100, sampleProduct200] from by simp [bulkFilter, percentageRequest]]
  rw [show validateBulkPriceUpdate percentageRequest = ⟨true, none⟩ from by
    simp [validateBulkPriceUpdate, percentageRequest, jsTruthyStr, jsTruthyQ]]
  simp only [List.foldl]
  rw [bulkStep_noTab _ _ (by norm_num [sampleProduct100, sampleProduct200])
      (by norm_num [sampleProduct100, sampleProduct200]),
    bulkStep_noTab _ _ (by norm_num [sampleProduct100, sampleProduct200])
      (by norm_num [sampleProduct100, sampleProduct200])]
  simp [jsOrStr, percentageRequest]

/-- The summary and catalog produced by the scenario-3 pricing run. -/
def bulkRunPricingResult : BulkResult :=
  { products := [{ sampleProduct100 with price := 110, previousPrice := some 100 },
                 { sampleProduct200 with price := 220, previousPrice := some 200 }]
    updatedCount := 2
    totalFiltered := 2
    conflictCount := 0
    strategy := "percentage"
    conflictProducts := [] }

/-- Concrete evaluation: scenario 3 with `activeTab: 'pricing'` commits
110 and 220. -/
theorem bulkRunPricing_eq :
    bulkUpdatePrices [sampleProduct100, sampleProduct200] percentageRequestPricing =
      .ok bulkRunPricingResult := by
  unfold bulkRunPricingResult
  norm_num [bulkUpdatePrices, validateBulkPriceUpdate, jsTruthyStr, jsTruthyQ, bulkFilter,
    bulkStep, bulkResolve, bulkNewPrice, applyStrategy, applyGuards, resolveShouldUpdate,
    newPriceAfterDiscount,
    commitById, commitProduct, round2, jsRound, jsOrQ, jsOrStr, percentageRequest,
    percentageRequestPricing, sampleProduct100, sampleProduct200, min_def, max_def,
    abs_eq_max_neg]
  simp

/-- C4 — counterexample.  With `{strategy: 'percentage', value: 10,
category: 'all'}` and no other fields, the effective `bulkUpdatePrices`
(whose pricing switch is gated on `activeTab === 'pricing'`) commits nothing:
the two products stay at 100 and 200 and `updatedCount = 0`, not the claimed
110/220 with `updatedCount = 2`. -/
theorem C4_counterexample :
    (bulkUpdatePrices [sampleProduct100, sampleProduct200] percentageRequest).toOption.map
        (fun r => (r.products.map (·.price), r.updatedCount)) = some ([100, 200], 0) ∧
      (bulkUpdatePrices [sampleProduct100, sampleProduct200] percentageRequest).toOption.map
        (fun r => (r.products.map (·.price), r.updatedCount)) ≠ some ([110, 220], 2) := by
  have h1 : (bulkUpdatePrices [sampleProduct100, sampleProduct200] percentageRequest).toOption.map
      (fun r => (r.products.map (·.price), r.updatedCount)) = some ([100, 200], 0) := by
    rw [bulkRunNoTab_eq]; rfl
  refine ⟨h1, ?_⟩
  rw [h1]
  norm_num

/-- C4 — amended.  With `activeTab: 'pricing'` additionally set, the same
request on the catalog [100, 200] commits new prices 110 and 220 and returns
`updatedCount = 2` (with `totalFiltered = 2`). -/
theorem C4_amended :
    (bulkUpdatePrices [sampleProduct100, sampleProduct200] percentageRequestPricing).toOption.map
        (fun r => (r.products.map (·.price), r.updatedCount, r.totalFiltered)) =
      some ([110, 220], 2, 2) := by
  rw [bulkRunPricing_eq]
  rfl

/-- C3 — the claim is the spec's stated intent, and the code contradicts it:
on a catalog product with no recorded history entries (and price above 100),
`getPriceHistory` fabricates a mock `"Seasonal adjustment"` entry instead of
returning the empty sequence. -/
theorem C3_fabricated_history :
    (getPriceHistory [historylessProduct] 1 0).toOption.map
        (fun l => l.map (·.reason)) = some ["Seasonal adjustment"] ∧
      (getPriceHistory [historylessProduct] 1 0).toOption ≠ some [] := by
  have h : getPriceHistory [historylessProduct] 1 0 =
      .ok [⟨-(7 * dayMs), 135, 150, "System", "Seasonal adjustment"⟩] := by
    norm_num [getPriceHistory, findById, historylessProduct, sampleProduct100, jsOrQ,
      sortByDateDesc, insertByDateDesc, dayMs]
  rw [h]
  exact ⟨rfl, by simp [Except.toOption]⟩

/-- C1 — counterexample.  A committed single-record update whose patch carries
only a price (50) on the record priced 100 with purchase price 80 succeeds and
leaves `price ≤ purchasePrice`: the claimed invariant fails after this
committed mutation. -/
theorem C1_counterexample :
    (update [sampleProduct100] 1 ⟨some 50, none, none⟩ 0).toOption.map
        (fun r => (r.2.price, r.2.purchasePrice)) = some (50, 80) ∧
      ¬ ((50 : ℚ) > 80) := by
  have h : update [sampleProduct100] 1 ⟨some 50, none, none⟩ 0 =
      .ok ([{ sampleProduct100 with
              price := 50
              previousPrice := some 100
              profitMargin := -75/2
              priceHistory := [⟨0, 100, 50, "Admin", "Manual update"⟩] }],
           { sampleProduct100 with
             price := 50
             previousPrice := some 100
             profitMargin := -75/2
             priceHistory := [⟨0, 100, 50, "Admin", "Manual update"⟩] }) := by
    norm_num [update, findById, patchPriceBad, patchStockBad, patchPricePurchaseBad,
      mergeUpdate, setById, round2, jsRound, sampleProduct100]
  rw [h]
  exact ⟨rfl, by norm_num⟩

/-- C1 — amended.  When the patch supplies both a price and a positive
purchase price and the update commits, the invariant does hold: the record's
price exceeds its purchase price and `profitMargin` is recomputed as the
2-decimal-rounded margin.  (A patch carrying only a price, and the bulk path,
are not covered: the counterexample shows the unrestricted claim fails.) -/
theorem C1_amended_margin (ps : List Product) (id : ℤ) (patch : UpdatePatch)
    (now : ℤ) (v pp : ℚ) (hv : patch.price = some v)
    (hpp : patch.purchasePrice = some pp) (h0 : 0 < pp)
    (r : List Product × Product) (h : update ps id patch now = .ok r) :
    r.2.purchasePrice < r.2.price ∧
      r.2.profitMargin =
        round2 ((r.2.price - r.2.purchasePrice) / r.2.purchasePrice * 100) := by
  unfold update at h
  cases hf : findById ps id with
  | none => rw [hf] at h; exact absurd h (by simp)
  | some cur =>
    rw [hf] at h
    by_cases hb1 : patchPriceBad patch
    · simp [hb1] at h
    · by_cases hb2 : patchStockBad patch
      · simp [hb1, hb2] at h
      · by_cases hb3 : patchPricePurchaseBad patch
        · simp [hb1, hb2, hb3] at h
        · simp only [hb1, hb2, hb3, if_false, Bool.false_eq_true, if_neg,
            not_false_eq_true, Except.ok.injEq] at h
          have hvpp : pp < v := by
            unfold patchPricePurchaseBad at hb3
            rw [hv, hpp] at hb3
            simpa using hb3
          have hmerge : (mergeUpdate cur patch now).purchasePrice = pp ∧
              (mergeUpdate cur patch now).price = v ∧
              (mergeUpdate cur patch now).profitMargin =
                round2 ((v - pp) / pp * 100) := by
            unfold mergeUpdate
            rw [hv, hpp]
            have hcond : (some v).getD cur.price ≠ 0 ∧ (some pp).getD cur.purchasePrice ≠ 0 := by
              simp only [Option.getD_some]
              exact ⟨ne_of_gt (lt_trans h0 hvpp), ne_of_gt h0⟩
            simp only [if_pos hcond]
            simp
          rw [← h]
          exact ⟨by rw [hmerge.1, hmerge.2.1]; exact hvpp,
            by rw [hmerge.1, hmerge.2.1, hmerge.2.2]⟩

/-- The updated record committed by the witness update (price 120 on the
100/80 sample). -/
def updatedSample120 : Product :=
  { sampleProduct100 with
    price := 120
    previousPrice := some 100
    profitMargin := 50
    priceHistory := [⟨0, 100, 120, "Admin", "Manual update"⟩] }

/-- Concrete evaluation: updating the sample record with price 120 and
purchase price 80 commits `updatedSample120`. -/
theorem updateBoth_eq :
    update [sampleProduct100] 1 ⟨some 120, some 80, none⟩ 0 =
      .ok ([updatedSample120], updatedSample120) := by
  norm_num [update, findById, patchPriceBad, patchStockBad, patchPricePurchaseBad,
    mergeUpdate, setById, round2, jsRound, sampleProduct100, updatedSample120]

/-- C1 — witness: the amended theorem applied to the concrete committed
update of the sample record with price 120 and purchase price 80. -/
theorem C1_amended_margin_witness :
    updatedSample120.purchasePrice < updatedSample120.price ∧
      updatedSample120.profitMargin =
        round2 ((updatedSample120.price - updatedSample120.purchasePrice) /
          updatedSample120.purchasePrice * 100) :=
  C1_amended_margin [sampleProduct100] 1 ⟨some 120, some 80, none⟩ 0 120 80 rfl rfl
    (by norm_num) ([updatedSample120], updatedSample120) updateBoth_eq

/-- A commit in the bulk loop never touches the record's `priceHistory`. -/
theorem commitProduct_priceHistory (u : BulkUpdateRequest) (cur : Product)
    (op np : ℚ) : (commitProduct u cur op np).priceHistory = cur.priceHistory := by
  unfold commitProduct
  split <;> rfl

/-- `commitById` preserves element-wise `priceHistory` when its writer does. -/
theorem commitById_map_priceHistory (pid : ℤ) (f : Product → Product)
    (hf : ∀ c, (f c).priceHistory = c.priceHistory) :
    ∀ ps : List Product,
      (commitById ps pid f).1.map (·.priceHistory) = ps.map (·.priceHistory)
  | [] => rfl
  | p :: rest => by
    unfold commitById
    by_cases hp : p.id = pid
    · simp [hp, hf]
    · simp [hp, commitById_map_priceHistory pid f hf rest]

/-- One bulk-loop iteration never touches any record's `priceHistory`. -/
theorem bulkStep_map_priceHistory (u : BulkUpdateRequest) (st : BulkState)
    (p : Product) :
    (bulkStep u st p).products.map (·.priceHistory) =
      st.products.map (·.priceHistory) := by
  have hc := commitById_map_priceHistory p.id
    (fun cur => commitProduct u cur p.price (bulkNewPrice u p))
    (fun c => commitProduct_priceHistory u c _ _)
  by_cases h1 : (bulkResolve u p).1 = true <;>
  by_cases hlt : (100:ℚ)⁻¹ < |bulkNewPrice u p - p.price| <;>
  by_cases h2 : (bulkResolve u p).2 = true <;>
    simp [bulkStep, h1, hlt, h2, hc, apply_ite (fun st : BulkState => st.products)]

/-- The whole bulk loop never touches any record's `priceHistory`. -/
theorem foldl_bulkStep_map_priceHistory (u : BulkUpdateRequest) :
    ∀ (l : List Product) (st : BulkState),
      ((l.foldl (bulkStep u) st).products.map (·.priceHistory)) =
        st.products.map (·.priceHistory)
  | [], _ => rfl
  | p :: rest, st => by
    rw [List.foldl_cons, foldl_bulkStep_map_priceHistory u rest _,
      bulkStep_map_priceHistory]

/-- C2 — amended.  The single-record `update` appends exactly one history
entry when the patch's price is present and differs from the current price and
appends nothing otherwise; `bulkUpdatePrices`, by contrast, never appends any
history entry at all — the committed records keep their previous
`priceHistory` unchanged (no entry with reason "Bulk update" exists). -/
theorem C2_amended_history :
    (∀ (ps : List Product) (u : BulkUpdateRequest) (r : BulkResult),
      bulkUpdatePrices ps u = .ok r →
        r.products.map (·.priceHistory) = ps.map (·.priceHistory)) ∧
    (∀ (ps : List Product) (id : ℤ) (patch : UpdatePatch) (now : ℤ)
        (r : List Product × Product) (cur : Product),
      findById ps id = some cur → update ps id patch now = .ok r →
        r.2.priceHistory = cur.priceHistory ++
          (match patch.price with
           | some v =>
             if v = cur.price then []
             else [⟨now, cur.price, v, "Admin", "Manual update"⟩]
           | none => [])) := by
  constructor
  · intro ps u r h
    unfold bulkUpdatePrices at h
    by_cases hv : (validateBulkPriceUpdate u).isValid = true
    · simp only [hv, if_true, Except.ok.injEq] at h
      rw [← h]
      exact foldl_bulkStep_map_priceHistory u _ _
    · simp only [hv, Bool.false_eq_true, if_neg, not_false_eq_true, if_false] at h
      exact absurd h (by simp)
  · intro ps id patch now r cur hf h
    unfold update at h
    rw [hf] at h
    by_cases hb1 : patchPriceBad patch
    · simp [hb1] at h
    · by_cases hb2 : patchStockBad patch
      · simp [hb1, hb2] at h
      · by_cases hb3 : patchPricePurchaseBad patch
        · simp [hb1, hb2, hb3] at h
        · simp only [hb1, hb2, hb3, Bool.false_eq_true, if_neg,
            not_false_eq_true, Except.ok.injEq] at h
          rw [← h]
          unfold mergeUpdate
          cases hpv : patch.price with
          | none => split <;> simp_all [apply_ite (fun q : Product => q.priceHistory)]
          | some v =>
            by_cases hch : v = cur.price
            · split <;> simp_all [apply_ite (fun q : Product => q.priceHistory)]
            · split <;> simp_all [apply_ite (fun q : Product => q.priceHistory)]

/-- C2 — counterexample.  The committed scenario-3 pricing run changes both
prices (110 and 220, `updatedCount = 2`) yet appends no `priceHistory` entry
to either record — in particular no entry with reason "Bulk update". -/
theorem C2_counterexample :
    (bulkUpdatePrices [sampleProduct100, sampleProduct200] percentageRequestPricing).toOption.map
        (fun r => (r.products.map (·.priceHistory), r.products.map (·.price), r.updatedCount)) =
      some ([[], []], [110, 220], 2) := by
  rw [bulkRunPricing_eq]
  rfl

/-- C2 — witness: both amended conjuncts applied at concrete committed runs
(the scenario-3 pricing bulk run, and the price-120 single update whose patch
changes the price). -/
theorem C2_amended_history_witness :
    ((bulkRunPricingResult.products.map (·.priceHistory)) =
        [sampleProduct100, sampleProduct200].map (·.priceHistory)) ∧
      updatedSample120.priceHistory = sampleProduct100.priceHistory ++
        [⟨0, 100, 120, "Admin", "Manual update"⟩] := by
  constructor
  · exact C2_amended_history.1 [sampleProduct100, sampleProduct200]
      percentageRequestPricing bulkRunPricingResult bulkRunPricing_eq
  · have h := C2_amended_history.2 [sampleProduct100] 1 ⟨some 120, some 80, none⟩ 0
      ([updatedSample120], updatedSample120) sampleProduct100 rfl updateBoth_eq
    simpa [sampleProduct100] using h

/-- Each entry of `bulkPartialUpdate` either succeeds with no error or fails
contributing exactly one error. -/
theorem partialStep_cases (ps : List Product) (u : PartialUpdate) (now : ℤ) :
    ((partialStep ps u now).2.1 = true ∧ (partialStep ps u now).2.2 = []) ∨
    ((partialStep ps u now).2.1 = false ∧ (partialStep ps u now).2.2.length = 1) := by
  unfold partialStep
  split
  · exact Or.inr ⟨rfl, rfl⟩
  · split
    · exact Or.inr ⟨rfl, rfl⟩
    · split
      · exact Or.inl ⟨rfl, rfl⟩
      · exact Or.inr ⟨rfl, rfl⟩

/-- The partial-update loop adds exactly one to the success count or to the
error count per entry. -/
theorem bulkPartialGo_count (now : ℤ) :
    ∀ (upds : List PartialUpdate) (ps : List Product) (s : ℕ)
      (errs : List (ℤ × String)),
      (bulkPartialGo now upds ps s errs).2.1 +
          (bulkPartialGo now upds ps s errs).2.2.length =
        s + errs.length + upds.length
  | [], ps, s, errs => by simp [bulkPartialGo]
  | u :: rest, ps, s, errs => by
    unfold bulkPartialGo
    rcases partialStep_cases ps u now with ⟨h1, h2⟩ | ⟨h1, h2⟩ <;>
      simp only [h1, h2, if_true, if_false, Bool.false_eq_true, if_neg,
        not_false_eq_true, List.append_nil] <;>
      rw [bulkPartialGo_count now rest _ _ _] <;>
      simp [h2] <;> omega

/-- C9 — confirmed.  Every entry of the list passed to `bulkPartialUpdate`
contributes to exactly one of `successCount` or the errors list:
`successCount + errors.length = totalUpdates = updates.length`, and since the
loop runs to the end of the list, a failing entry never prevents later entries
from being processed. -/
theorem C9_partial_counts (ps : List Product) (updates : List PartialUpdate)
    (now : ℤ) :
    (bulkPartialUpdate ps updates now).successCount +
        (bulkPartialUpdate ps updates now).errors.length = updates.length ∧
      (bulkPartialUpdate ps updates now).totalUpdates = updates.length := by
  unfold bulkPartialUpdate
  refine ⟨?_, rfl⟩
  have h := bulkPartialGo_count now updates ps 0 []
  simpa using h

/-- The discount-bound re-checks never report an `overlapping_dates` type. -/
theorem any_overlap_boundConflicts (cand : Product) :
    (discountBoundConflicts cand).any (fun c => c.type == "overlapping_dates") =
      false := by
  unfold discountBoundConflicts
  split_ifs <;> simp

/-- The low-margin check never reports an `overlapping_dates` type. -/
theorem any_overlap_lowMargin (cand : Product) :
    (lowMarginConflicts cand).any (fun c => c.type == "overlapping_dates") =
      false := by
  unfold lowMarginConflicts
  split_ifs <;> simp

/-- The `overlapping_dates` flag of `validateOfferConflicts` is exactly the
flag of its date-overlap section. -/
theorem hasOverlap_eq (cand : Product) (ps : List Product) (ex : Option ℤ) :
    hasOverlapConflict (validateOfferConflicts cand ps ex) =
      (overlapConflicts cand ps ex).any (fun c => c.type == "overlapping_dates") := by
  unfold hasOverlapConflict validateOfferConflicts
  simp [List.any_append, any_overlap_boundConflicts, any_overlap_lowMargin]

set_option maxRecDepth 4000 in
/-- Characterization of the `overlapping_dates` flag against a one-record
catalog. -/
theorem overlap_flag_iff (A B : Product) :
    hasOverlapConflict (validateOfferConflicts A [B] none) = true ↔
      (A.category = B.category ∧ 0 < A.discountValue ∧ 0 < B.discountValue ∧
        ∃ s1 e1 s2 e2,
          A.discountStartDate = some s1 ∧ A.discountEndDate = some e1 ∧
          B.discountStartDate = some s2 ∧ B.discountEndDate = some e2 ∧
          s1 ≤ e2 ∧ s2 ≤ e1) := by
  rw [hasOverlap_eq]
  unfold overlapConflicts overlapCandidates idNotExcluded
  rcases hs1 : A.discountStartDate with _ | s1 <;>
  rcases he1 : A.discountEndDate with _ | e1 <;>
  rcases hs2 : B.discountStartDate with _ | s2 <;>
  rcases he2 : B.discountEndDate with _ | e2 <;>
    simp [hs1, he1, hs2, he2, List.filter_cons, List.filterMap, beq_iff_eq]
  constructor
  · rintro ⟨x, ⟨ha, a, ⟨⟨hc, hb⟩, rfl⟩, ⟨h5, h6⟩, rfl⟩, -⟩
    rw [hs2] at h6
    rw [he2] at h5
    exact ⟨hc.symm, ha, hb, by simpa using h5, by simpa using h6⟩
  · rintro ⟨hc, ha, hb, h5, h6⟩
    refine ⟨_, ⟨ha, B, ⟨⟨hc.symm, hb⟩, rfl⟩, ⟨?_, ?_⟩, rfl⟩, rfl⟩
    · simpa [he2] using h5
    · simpa [hs2] using h6

/-- C6 — confirmed.  Overlapping-date conflict detection is symmetric:
`validateOfferConflicts(A, [B], null)` reports an `overlapping_dates` conflict
iff `validateOfferConflicts(B, [A], null)` does, and both hold exactly when A
and B share a category, both carry a positive discount with defined windows
`[s1, e1]` and `[s2, e2]`, and `s1 ≤ e2 ∧ s2 ≤ e1`. -/
theorem C6_overlap_symmetry (A B : Product) :
    (hasOverlapConflict (validateOfferConflicts A [B] none) = true ↔
      hasOverlapConflict (validateOfferConflicts B [A] none) = true) ∧
    (hasOverlapConflict (validateOfferConflicts A [B] none) = true ↔
      (A.category = B.category ∧ 0 < A.discountValue ∧ 0 < B.discountValue ∧
        ∃ s1 e1 s2 e2,
          A.discountStartDate = some s1 ∧ A.discountEndDate = some e1 ∧
          B.discountStartDate = some s2 ∧ B.discountEndDate = some e2 ∧
          s1 ≤ e2 ∧ s2 ≤ e1)) := by
  refine ⟨?_, overlap_flag_iff A B⟩
  rw [overlap_flag_iff A B, overlap_flag_iff B A]
  constructor
  · rintro ⟨hc, ha, hb, s1, e1, s2, e2, h1, h2, h3, h4, h5, h6⟩
    exact ⟨hc.symm, hb, ha, s2, e2, s1, e1, h3, h4, h1, h2, h6, h5⟩
  · rintro ⟨hc, hb, ha, s2, e2, s1, e1, h3, h4, h1, h2, h6, h5⟩
    exact ⟨hc.symm, ha, hb, s1, e1, s2, e2, h1, h2, h3, h4, h5, h6⟩

/-- A catalog record already carrying a 50% percentage discount. -/
def mergeSampleProduct : Product :=
  { sampleProduct100 with discountType := some "Percentage", discountValue := 50 }

/-- A merge-policy category-discount request whose new discount is fixed-type
with value 5. -/
def mergeFixedRequest : BulkUpdateRequest :=
  { percentageRequest with
    activeTab := some "discounts"
    categoryDiscount := true
    conflictResolution := some "merge"
    discountType := some "fixed"
    discountValue := some 5 }

/-- The same request with a percentage-type new discount. -/
def mergePercentRequest : BulkUpdateRequest :=
  { mergeFixedRequest with discountType := some "percentage" }

theorem mergeFixed_resolve :
    bulkResolve mergeFixedRequest mergeSampleProduct = (true, false) := by
  norm_num [bulkResolve, resolveShouldUpdate, mergeKeepsExisting, mergeFixedRequest,
    percentageRequest, mergeSampleProduct, sampleProduct100]
  simp

theorem mergeFixed_newPrice :
    bulkNewPrice mergeFixedRequest mergeSampleProduct = 95 := by
  unfold bulkNewPrice
  rw [mergeFixed_resolve]
  norm_num [applyGuards, newPriceAfterDiscount, applyStrategy, mergeFixedRequest,
    percentageRequest, mergeSampleProduct, sampleProduct100, min_eq_left, max_eq_right]

/-- Concrete evaluation: the merge request with a fixed-type new discount
overwrites the existing 50% discount. -/
theorem bulkRunMergeFixed_eq :
    bulkUpdatePrices [mergeSampleProduct] mergeFixedRequest =
      .ok
        { products := [{ mergeSampleProduct with
                         price := 95
                         previousPrice := some 100
                         discountType := some "fixed"
                         discountValue := 5 }]
          updatedCount := 1
          totalFiltered := 1
          conflictCount := 0
          strategy := "percentage"
          conflictProducts := [] } := by
  unfold bulkUpdatePrices
  rw [show validateBulkPriceUpdate mergeFixedRequest = ⟨true, none⟩ from by
    simp [validateBulkPriceUpdate, jsTruthyStr, jsTruthyQ, mergeFixedRequest,
      percentageRequest]]
  rw [show bulkFilter [mergeSampleProduct] mergeFixedRequest = [mergeSampleProduct] from by
    simp [bulkFilter, mergeFixedRequest, percentageRequest]]
  simp only [List.foldl]
  unfold bulkStep
  rw [mergeFixed_resolve, mergeFixed_newPrice]
  norm_num [commitById, commitProduct, round2, jsRound, abs_of_nonpos,
    mergeFixedRequest, percentageRequest, mergeSampleProduct, sampleProduct100, jsOrStr]
  simp

theorem mergePercent_resolve :
    bulkResolve mergePercentRequest mergeSampleProduct = (false, false) := by
  norm_num [bulkResolve, resolveShouldUpdate, mergeKeepsExisting, existingDiscountAmount,
    mergePercentRequest, mergeFixedRequest, percentageRequest, mergeSampleProduct,
    sampleProduct100]
  simp

/-- The summary of the merge run whose smaller percentage-type discount is
kept out. -/
def mergePercentResult : BulkResult :=
  { products := [mergeSampleProduct]
    updatedCount := 0
    totalFiltered := 1
    conflictCount := 0
    strategy := "percentage"
    conflictProducts := [] }

/-- Concrete evaluation: the merge request with a smaller percentage-type new
discount leaves the record unchanged. -/
theorem bulkRunMergePercent_eq :
    bulkUpdatePrices [mergeSampleProduct] mergePercentRequest =
      .ok mergePercentResult := by
  unfold mergePercentResult
  unfold bulkUpdatePrices
  rw [show validateBulkPriceUpdate mergePercentRequest = ⟨true, none⟩ from by
    simp [validateBulkPriceUpdate, jsTruthyStr, jsTruthyQ, mergePercentRequest,
      mergeFixedRequest, percentageRequest]]
  rw [show bulkFilter [mergeSampleProduct] mergePercentRequest = [mergeSampleProduct] from by
    simp [bulkFilter, mergePercentRequest, mergeFixedRequest, percentageRequest]]
  simp only [List.foldl]
  unfold bulkStep
  rw [mergePercent_resolve]
  norm_num [mergePercentRequest, mergeFixedRequest, percentageRequest, jsOrStr]
  simp


/-- C7 — amended.  Under the `merge` policy, a filtered record that already
carries a discount keeps the larger reduction only when the new discount is
percentage-type: the record is unchanged when the new percentage amount (on
the pre-discount price) does not exceed the existing discount's amount, and
receives the new discount when it does (provided the clamped price moves by
more than the 0.01 epsilon and no request-level guard is set); when the new
discount is NOT percentage-type, merge never compares at all and applies the
new discount unconditionally, like `override`. -/
theorem C7_amended_merge (p : Product) (u : BulkUpdateRequest) (r : BulkResult)
    (htab : u.activeTab = some "discounts") (hcd : u.categoryDiscount = true)
    (hres : u.conflictResolution = some "merge") (hpd : 0 < p.discountValue)
    (hdv : 0 < (u.discountValue).getD 0)
    (hfilter : bulkFilter [p] u = [p])
    (h : bulkUpdatePrices [p] u = .ok r) :
    (u.discountType = some "percentage" →
      p.price * (u.discountValue).getD 0 / 100 ≤ existingDiscountAmount p →
      r.products = [p] ∧ r.updatedCount = 0) ∧
    (u.discountType = some "percentage" → u.minPrice = none → u.maxPrice = none →
      existingDiscountAmount p < p.price * (u.discountValue).getD 0 / 100 →
      1/100 < |max 1 (min (p.price * (1 - (u.discountValue).getD 0 / 100)) 100000) - p.price| →
      r.products = [commitProduct u p p.price
          (max 1 (min (p.price * (1 - (u.discountValue).getD 0 / 100)) 100000))] ∧
        r.updatedCount = 1) ∧
    (u.discountType ≠ some "percentage" → u.minPrice = none → u.maxPrice = none →
      1/100 < |max 1 (min (p.price - (u.discountValue).getD 0) 100000) - p.price| →
      r.products = [commitProduct u p p.price
          (max 1 (min (p.price - (u.discountValue).getD 0) 100000))] ∧
        r.updatedCount = 1) := by
  unfold bulkUpdatePrices at h
  by_cases hv : (validateBulkPriceUpdate u).isValid = true
  case neg => simp [hv] at h
  simp only [hv, if_true, hfilter, List.foldl_cons, List.foldl_nil,
    Except.ok.injEq] at h
  subst h
  have hbr : bulkResolve u p = (!(mergeKeepsExisting u p), false) := by
    unfold bulkResolve resolveShouldUpdate
    rw [if_pos ⟨htab, hcd⟩, if_pos hpd, hres]
    simp
  have hcommit : ∀ np : ℚ,
      commitById [p] p.id (fun cur => commitProduct u cur p.price np) =
        ([commitProduct u p p.price np], true) := by
    intro np
    unfold commitById
    simp
  refine ⟨?_, ?_, ?_⟩
  · intro hdt hle
    have hmk : mergeKeepsExisting u p = true := by
      unfold mergeKeepsExisting
      rw [if_pos hdt]
      exact decide_eq_true hle
    constructor <;> simp [bulkStep, hbr, hmk]
  · intro hdt hmin hmax hlt hth
    have hmk : mergeKeepsExisting u p = false := by
      unfold mergeKeepsExisting
      rw [if_pos hdt]
      exact decide_eq_false (not_le.mpr hlt)
    have hnp : bulkNewPrice u p =
        max 1 (min (p.price * (1 - (u.discountValue).getD 0 / 100)) 100000) := by
      unfold bulkNewPrice newPriceAfterDiscount applyGuards
      rw [if_pos ⟨htab, hcd⟩]
      simp [hbr, hmk, hdt, hdv, hmin, hmax]
    constructor <;> simp [bulkStep, hbr, hmk, hnp, hcommit, ← one_div, hth]
  · intro hdt hmin hmax hth
    have hmk : mergeKeepsExisting u p = false := by
      unfold mergeKeepsExisting
      rw [if_neg hdt]
    have hnp : bulkNewPrice u p =
        max 1 (min (p.price - (u.discountValue).getD 0) 100000) := by
      unfold bulkNewPrice newPriceAfterDiscount applyGuards
      rw [if_pos ⟨htab, hcd⟩]
      simp [hbr, hmk, hdt, hdv, hmin, hmax]
    constructor <;> simp [bulkStep, hbr, hmk, hnp, hcommit, ← one_div, hth]

/-- C7 — counterexample.  The existing 50% discount reduces the price by 50,
far more than the new fixed discount's 5, yet a merge bulk update with the
fixed-type new discount commits it anyway: the record does not keep the
larger-reduction discount, refuting the for-every-type-combination claim. -/
theorem C7_counterexample :
    existingDiscountAmount mergeSampleProduct = 50 ∧ (5:ℚ) ≤ 50 ∧
      (bulkUpdatePrices [mergeSampleProduct] mergeFixedRequest).toOption.map
        (fun r => (r.products.map fun q => (q.price, q.discountValue, q.discountType),
          r.updatedCount)) = some ([(95, 5, some "fixed")], 1) := by
  refine ⟨?_, by norm_num, ?_⟩
  · norm_num [existingDiscountAmount, mergeSampleProduct, sampleProduct100]
  · rw [bulkRunMergeFixed_eq]
    rfl

/-- C7 — witness: the amended theorem's keep-existing branch applied to the
concrete merge run with a smaller percentage-type new discount. -/
theorem C7_amended_merge_witness :
    mergePercentResult.products = [mergeSampleProduct] ∧
      mergePercentResult.updatedCount = 0 :=
  (C7_amended_merge mergeSampleProduct mergePercentRequest mergePercentResult rfl rfl rfl
      (by norm_num [mergeSampleProduct, sampleProduct100])
      (by norm_num [mergePercentRequest, mergeFixedRequest, percentageRequest])
      (by simp [bulkFilter, mergePercentRequest, mergeFixedRequest, percentageRequest])
      bulkRunMergePercent_eq).1 rfl
    (by norm_num [existingDiscountAmount, mergePercentRequest, mergeFixedRequest,
      percentageRequest, mergeSampleProduct, sampleProduct100])


/-- The per-record relation of the clamp invariant: a record is either
untouched (same price) or its committed price lies in `[1, 100000]`. -/
def clampRel (p q : Product) : Prop :=
  q.price = p.price ∨ (1 ≤ q.price ∧ q.price ≤ 100000)

/-- `round2` is monotone. -/
theorem round2_mono {x y : ℚ} (h : x ≤ y) : round2 x ≤ round2 y := by
  unfold round2 jsRound
  have h1 : (⌊x * 100 + 1/2⌋ : ℤ) ≤ ⌊y * 100 + 1/2⌋ :=
    Int.floor_le_floor (by linarith)
  have h2 : ((⌊x * 100 + 1/2⌋ : ℤ) : ℚ) ≤ ((⌊y * 100 + 1/2⌋ : ℤ) : ℚ) := by
    exact_mod_cast h1
  linarith

/-- `round2` keeps values inside the clamp range. -/
theorem round2_clamp_bounds {x : ℚ} (h1 : 1 ≤ x) (h2 : x ≤ 100000) :
    1 ≤ round2 x ∧ round2 x ≤ 100000 := by
  have e1 : round2 1 = 1 := by norm_num [round2, jsRound]
  have e2 : round2 100000 = 100000 := by norm_num [round2, jsRound]
  constructor
  · rw [← e1]; exact round2_mono h1
  · rw [← e2]; exact round2_mono h2

/-- The guard-and-clamp step always lands in `[1, 100000]`. -/
theorem applyGuards_bounds (u : BulkUpdateRequest) (x : ℚ) :
    1 ≤ applyGuards u x ∧ applyGuards u x ≤ 100000 := by
  unfold applyGuards
  refine ⟨le_max_left _ _, max_le (by norm_num) (min_le_right _ _)⟩

/-- The fully clamped per-record bulk price lies in `[1, 100000]`. -/
theorem bulkNewPrice_bounds (u : BulkUpdateRequest) (p : Product) :
    1 ≤ bulkNewPrice u p ∧ bulkNewPrice u p ≤ 100000 := by
  unfold bulkNewPrice
  exact applyGuards_bounds u _

/-- A committed record's price is the rounding of the clamped new price. -/
theorem commitProduct_price (u : BulkUpdateRequest) (cur : Product)
    (op np : ℚ) : (commitProduct u cur op np).price = round2 np := by
  unfold commitProduct
  split <;> rfl

/-- `clampRel` holds reflexively. -/
theorem forall2_clampRel_refl (l : List Product) : List.Forall₂ clampRel l l :=
  List.forall₂_same.mpr fun _ _ => Or.inl rfl

/-- `clampRel` composes along intermediate catalogs. -/
theorem forall2_clampRel_comp :
    ∀ {ps qs rs : List Product}, List.Forall₂ clampRel ps qs →
      List.Forall₂ clampRel qs rs → List.Forall₂ clampRel ps rs
  | _, _, _, List.Forall₂.nil, List.Forall₂.nil => List.Forall₂.nil
  | _, _, _, List.Forall₂.cons h1 t1, List.Forall₂.cons h2 t2 => by
    refine List.Forall₂.cons ?_ (forall2_clampRel_comp t1 t2)
    rcases h2 with h2 | h2
    · rcases h1 with h1 | h1
      · exact Or.inl (h2.trans h1)
      · exact Or.inr ⟨h2 ▸ h1.1, h2 ▸ h1.2⟩
    · exact Or.inr h2

/-- Writing a bounded-price record at one position preserves `clampRel`
against the pre-state. -/
theorem commitById_forall2 (pid : ℤ) (f : Product → Product)
    (hf : ∀ c, 1 ≤ (f c).price ∧ (f c).price ≤ 100000) :
    ∀ ps : List Product, List.Forall₂ clampRel ps (commitById ps pid f).1
  | [] => List.Forall₂.nil
  | p :: rest => by
    unfold commitById
    by_cases hp : p.id = pid
    · simp only [hp, if_true, if_pos]
      exact List.Forall₂.cons (Or.inr (hf p)) (forall2_clampRel_refl rest)
    · simp only [hp, if_neg, if_false, not_false_eq_true]
      exact List.Forall₂.cons (Or.inl rfl) (commitById_forall2 pid f hf rest)

/-- One bulk-loop iteration preserves `clampRel` against its pre-state. -/
theorem bulkStep_forall2 (u : BulkUpdateRequest) (st : BulkState) (p : Product) :
    List.Forall₂ clampRel st.products (bulkStep u st p).products := by
  have hf : ∀ c, 1 ≤ (commitProduct u c p.price (bulkNewPrice u p)).price ∧
      (commitProduct u c p.price (bulkNewPrice u p)).price ≤ 100000 := by
    intro c
    rw [commitProduct_price]
    exact round2_clamp_bounds (bulkNewPrice_bounds u p).1 (bulkNewPrice_bounds u p).2
  by_cases h2 : (bulkResolve u p).2 = true <;>
    simp only [bulkStep, h2, eq_self_iff_true, if_true, if_false, iff_false,
      Bool.false_eq_true, not_false_eq_true, if_neg] <;>
    split <;> (try split) <;>
    first
      | exact forall2_clampRel_refl _
      | exact commitById_forall2 p.id _ hf _

/-- The whole bulk loop preserves `clampRel` against the original catalog. -/
theorem foldl_bulkStep_forall2 (u : BulkUpdateRequest) (ps : List Product) :
    ∀ (l : List Product) (st : BulkState),
      List.Forall₂ clampRel ps st.products →
      List.Forall₂ clampRel ps ((l.foldl (bulkStep u) st).products)
  | [], _, h => h
  | p :: rest, st, h => by
    rw [List.foldl_cons]
    exact foldl_bulkStep_forall2 u ps rest (bulkStep u st p)
      (forall2_clampRel_comp h (bulkStep_forall2 u st p))

/-- C5 — confirmed.  Every record in the catalog after a committed bulk price
update either keeps its previous price or carries a price in `[1, 100000]`:
the request-level min/max guards run before the `[1, 100000]` clamp, and the
final 2-decimal rounding cannot leave the range, so no committed price ever
escapes the bounds. -/
theorem C5_clamp_invariant (ps : List Product) (u : BulkUpdateRequest)
    (r : BulkResult) (h : bulkUpdatePrices ps u = .ok r) :
    List.Forall₂ clampRel ps r.products := by
  unfold bulkUpdatePrices at h
  by_cases hv : (validateBulkPriceUpdate u).isValid = true
  case neg => simp [hv] at h
  simp only [hv, if_true, Except.ok.injEq] at h
  subst h
  exact foldl_bulkStep_forall2 u ps _ _ (forall2_clampRel_refl ps)

/-- C5 — witness: the clamp invariant read off the concrete scenario-3 pricing
run. -/
theorem C5_clamp_invariant_witness :
    List.Forall₂ clampRel [sampleProduct100, sampleProduct200]
      bulkRunPricingResult.products :=
  C5_clamp_invariant [sampleProduct100, sampleProduct200] percentageRequestPricing
    bulkRunPricingResult bulkRunPricing_eq

end ProductService
